import Mathlib

/-!
Shallow embedding of the BlazeSend OTP lifecycle engine (`OTPService`,
`SMSService`, `EmailService`, `MessagingService`) from the TypeScript source.

Modelling choices:
* The Redis store is a partial map `String → Option StoreEntry`, an entry
  being a string value together with an optional TTL (in seconds, `none`
  meaning no expiry).  `SETEX`, `GET`, `DEL` and `INCR` are modelled at a
  fixed instant: `SETEX` installs the given TTL, `INCR` preserves the TTL of
  an existing entry and creates absent keys without a TTL, matching Redis.
* `Math.random()` is modelled as a rational draw `q` with `0 ≤ q < 1`
  (JavaScript doubles are rationals); `Math.floor` is `Int.floor`.
* JavaScript number-to-string conversion (`.toString()`, template
  interpolation, Redis INCR's decimal formatting) is `decStr`, a base-10
  printer built on `Nat.digits`; `parseInt` on the decimal strings the
  engine stores is `parseDec` (leading decimal digits, `none` for NaN).
* SHA-256 (`hashOTP`) is an abstract function parameter `hash`: the engine
  only ever compares digests for equality, so every property below is
  proved for an arbitrary digest function.
* JavaScript truthiness tests on strings (`!storedHash`, `!current`,
  `count && …`) treat the empty string like an absent value; the embedding
  reproduces those checks explicitly.
* `SendResult.data` (typed `any`, never inspected by the engine) is omitted.
-/

/-- Result type of the send/deliver operations (`SendResult` in the source). -/
structure SendResult where
  success : Bool
  message : String
deriving DecidableEq, Repr

/-- Result type of `OTPService.verifyOTP`. -/
structure VerifyResult where
  valid : Bool
  message : String
deriving DecidableEq, Repr

/-- Result type of `OTPService.checkRateLimit` (`{allowed, message?}`). -/
structure RateCheck where
  allowed : Bool
  message : Option String
deriving DecidableEq, Repr

/-- One stored Redis value: the string payload and its remaining TTL in
seconds (`none` = no expiry). -/
structure StoreEntry where
  value : String
  ttl : Option Nat
deriving DecidableEq, Repr

/-- The Redis key space at one instant. -/
def Store : Type := String → Option StoreEntry

/-- The empty store. -/
def Store.empty : Store := fun _ => none

/-- Redis `GET`: the value of a key, if present. -/
def Store.get (s : Store) (k : String) : Option String :=
  (s k).map (fun e => e.value)

/-- Redis `SETEX key seconds value`. -/
def Store.setEx (s : Store) (k : String) (seconds : Nat) (v : String) : Store :=
  Function.update s k (some ⟨v, some seconds⟩)

/-- Redis `DEL key`. -/
def Store.del (s : Store) (k : String) : Store :=
  Function.update s k none

/-- Decimal digit character for `d < 10`. -/
def decChar (d : Nat) : Char := Char.ofNat (48 + d)

/-- Base-10 rendering of a natural number, modelling JavaScript
number-to-string conversion and Redis INCR's decimal formatting. -/
def decStr (n : Nat) : String :=
  if n = 0 then "0" else String.mk (((Nat.digits 10 n).map decChar).reverse)

/-- Model of `parseInt` on the strings the engine stores: the maximal run of
leading decimal digits, `none` (NaN) when there is no leading digit. -/
def parseDec (s : String) : Option Nat :=
  let ds := s.data.takeWhile (fun c => c.isDigit)
  if ds.isEmpty then none
  else some (List.foldl (fun a c => 10 * a + (c.toNat - 48)) 0 ds)

/-- Redis `INCR key`: parse the current value as an integer (absent treated
as 0), add one, store the decimal rendering; the TTL of an existing entry is
preserved and an absent key is created without a TTL. -/
def Store.incr (s : Store) (k : String) : Store :=
  match s k with
  | none => Function.update s k (some ⟨decStr 1, none⟩)
  | some e => Function.update s k (some ⟨decStr ((parseDec e.value).getD 0 + 1), e.ttl⟩)

namespace OTPService

/-- OTP code lifetime in seconds (`OTP_EXPIRY = 600`). -/
def OTP_EXPIRY : Nat := 600

/-- Maximum failed verification attempts (`MAX_ATTEMPTS = 3`). -/
def MAX_ATTEMPTS : Nat := 3

/-- Rate-limit window in seconds (`RATE_LIMIT_WINDOW = 3600`). -/
def RATE_LIMIT_WINDOW : Nat := 3600

/-- Maximum issuances per window (`MAX_OTP_PER_HOUR = 3`). -/
def MAX_OTP_PER_HOUR : Nat := 3

/-- Code-record key `otp:${identifier}`. -/
def otpKey (identifier : String) : String := "otp:" ++ identifier

/-- Attempt-counter key `otp:attempts:${identifier}`. -/
def attemptsKey (identifier : String) : String := "otp:attempts:" ++ identifier

/-- Rate-counter key `otp:ratelimit:${identifier}`. -/
def rateLimitKey (identifier : String) : String := "otp:ratelimit:" ++ identifier

/-- Numeric value of `Math.floor(100000 + Math.random() * 900000)` for the
random draw `q` (`Math.random()` returns `q ∈ [0, 1)`). -/
def otpNum (q : ℚ) : Nat := (⌊(100000 : ℚ) + q * 900000⌋).toNat

/-- `OTPService.generateOTP`: `Math.floor(100000 + Math.random() * 900000).toString()`. -/
def generateOTP (q : ℚ) : String := decStr (otpNum q)

/-- `OTPService.checkRateLimit`: read the rate counter; deny when it is a
truthy string parsing to at least `MAX_OTP_PER_HOUR`.  Performs only a `GET`
and therefore returns no modified store. -/
def checkRateLimit (s : Store) (identifier : String) : RateCheck :=
  match Store.get s (rateLimitKey identifier) with
  | none => ⟨true, none⟩
  | some count =>
    if count ≠ "" ∧ MAX_OTP_PER_HOUR ≤ (parseDec count).getD 0 then
      ⟨false, some "Rate limit exceeded. Maximum 3 OTPs per hour."⟩
    else ⟨true, none⟩

/-- `OTPService.incrementRateLimit`: `SETEX … 3600 "1"` when the counter is
absent (or empty, which `if (!current)` also treats as absent), `INCR`
otherwise. -/
def incrementRateLimit (s : Store) (identifier : String) : Store :=
  let rateKey := rateLimitKey identifier
  match Store.get s rateKey with
  | none => Store.setEx s rateKey RATE_LIMIT_WINDOW "1"
  | some current =>
    if current = "" then Store.setEx s rateKey RATE_LIMIT_WINDOW "1"
    else Store.incr s rateKey

/-- `OTPService.storeOTP`: store the hashed code with the code-lifetime TTL,
reset the attempt counter to "0" with the same TTL, then increment the rate
counter. -/
def storeOTP (hash : String → String) (s : Store) (identifier otp : String) : Store :=
  let hashedOTP := hash otp
  let s1 := Store.setEx s (otpKey identifier) OTP_EXPIRY hashedOTP
  let s2 := Store.setEx s1 (attemptsKey identifier) OTP_EXPIRY "0"
  incrementRateLimit s2 identifier

/-- Attempts read of `verifyOTP`: `attemptsStr ? parseInt(attemptsStr) : 0`
(`GET` of the attempts key, absent or empty treated as 0). -/
def readAttempts (s : Store) (identifier : String) : Nat :=
  match Store.get s (attemptsKey identifier) with
  | none => 0
  | some a => if a = "" then 0 else (parseDec a).getD 0

/-- `OTPService.verifyOTP`: the verification state machine.  Returns the
result together with the store it leaves behind. -/
def verifyOTP (hash : String → String) (s : Store) (identifier otp : String) :
    VerifyResult × Store :=
  let ok := otpKey identifier
  let ak := attemptsKey identifier
  match Store.get s ok with
  | none => (⟨false, "OTP expired or not found"⟩, s)
  | some storedHash =>
    if storedHash = "" then (⟨false, "OTP expired or not found"⟩, s)
    else
      let attempts := readAttempts s identifier
      if MAX_ATTEMPTS ≤ attempts then
        (⟨false, "Maximum verification attempts exceeded"⟩, Store.del (Store.del s ok) ak)
      else
        let hashedInput := hash otp
        if hashedInput = storedHash then
          (⟨true, "OTP verified successfully"⟩, Store.del (Store.del s ok) ak)
        else
          (⟨false, "Invalid OTP. " ++ decStr (MAX_ATTEMPTS - (attempts + 1)) ++
              " attempt(s) remaining"⟩,
            Store.incr s ak)

end OTPService

/-- The two delivery channels of `MessagingService.sendOTP`. -/
inductive Channel where
  | sms
  | email
deriving DecidableEq, Repr

/-- The string interpolated for `${channel}`. -/
def channelName : Channel → String
  | .sms => "sms"
  | .email => "email"

/-- `SMSService.sendOTP`: dispatch to the active provider, or report that no
provider is configured.  A provider is modelled as its `sendOTP` capability. -/
def SMSService.sendOTP (provider : Option (String → String → SendResult))
    (toAddr otp : String) : SendResult :=
  match provider with
  | none => ⟨false, "No SMS provider configured"⟩
  | some p => p toAddr otp

/-- `EmailService.sendOTP`: dispatch to the active provider, or report that
no provider is configured. -/
def EmailService.sendOTP (provider : Option (String → String → Option String → SendResult))
    (toAddr otp : String) (brandName : Option String) : SendResult :=
  match provider with
  | none => ⟨false, "No email provider configured"⟩
  | some p => p toAddr otp brandName

/-- Channel dispatch of `MessagingService.sendOTP` (`if (channel === 'sms')
… else …`): the delivery outcome produced by the selected channel. -/
def MessagingService.deliverOTP
    (smsProvider : Option (String → String → SendResult))
    (emailProvider : Option (String → String → Option String → SendResult))
    (channel : Channel) (identifier otp : String) (brandName : Option String) :
    SendResult :=
  match channel with
  | .sms => SMSService.sendOTP smsProvider identifier otp
  | .email => EmailService.sendOTP emailProvider identifier otp brandName

/-- `MessagingService.sendOTP`: rate-limit check, code generation, storage,
delivery via the chosen channel, and result shaping.  `q` is the
`Math.random()` draw; the development-mode console logging has no store or
result effect and is omitted. -/
def MessagingService.sendOTP (hash : String → String)
    (smsProvider : Option (String → String → SendResult))
    (emailProvider : Option (String → String → Option String → SendResult))
    (channel : Channel) (identifier : String) (brandName : Option String)
    (q : ℚ) (s : Store) : SendResult × Store :=
  let rateLimitCheck := OTPService.checkRateLimit s identifier
  if rateLimitCheck.allowed = false then
    (⟨false, rateLimitCheck.message.getD ""⟩, s)
  else
    let otp := OTPService.generateOTP q
    let s1 := OTPService.storeOTP hash s identifier otp
    let result := MessagingService.deliverOTP smsProvider emailProvider
      channel identifier otp brandName
    if result.success then
      (⟨true, "OTP sent successfully via " ++ channelName channel⟩, s1)
    else (result, s1)

/-- `MessagingService.verifyOTP`: wrap the engine's verification result as a
`SendResult`. -/
def MessagingService.verifyOTP (hash : String → String) (s : Store)
    (identifier otp : String) : SendResult × Store :=
  let r := OTPService.verifyOTP hash s identifier otp
  (⟨r.1.valid, r.1.message⟩, r.2)

/-!
Helper lemmas about the decimal printer, the generated code's numeric range,
the key namespace, and store accesses.
-/

lemma decChar_isDigit {d : Nat} (h : d < 10) : (decChar d).isDigit = true := by
  interval_cases d <;> decide

lemma decChar_eq_zero_iff {d : Nat} (h : d < 10) : decChar d = '0' ↔ d = 0 := by
  interval_cases d <;> simp <;> decide

lemma decStr_length {n : ℕ} (h1 : 100000 ≤ n) (h2 : n ≤ 999999) :
    (decStr n).length = 6 := by
  have hn : n ≠ 0 := by omega
  rw [decStr, if_neg hn]
  have hlog : Nat.log 10 n = 5 :=
    Nat.log_eq_of_pow_le_of_lt_pow (by norm_num; omega) (by norm_num; omega)
  simp [String.length, Nat.digits_len 10 n (by norm_num) hn, hlog]

lemma decStr_head_ne_zero {n : ℕ} (h1 : 100000 ≤ n) :
    (decStr n).data.head? ≠ some '0' := by
  have hn : n ≠ 0 := by omega
  rw [decStr, if_neg hn]
  have hne : Nat.digits 10 n ≠ [] := Nat.digits_ne_nil_iff_ne_zero.mpr hn
  rw [show ((String.mk (((Nat.digits 10 n).map decChar).reverse)).data
      = ((Nat.digits 10 n).map decChar).reverse) from rfl]
  rw [List.head?_reverse, List.getLast?_map, List.getLast?_eq_getLast _ hne]
  intro hc
  have hlt : (Nat.digits 10 n).getLast hne < 10 :=
    Nat.digits_lt_base (by norm_num) (List.getLast_mem hne)
  have hd0 : (Nat.digits 10 n).getLast hne = 0 :=
    (decChar_eq_zero_iff hlt).mp (by simpa using hc)
  exact Nat.getLast_digit_ne_zero 10 hn hd0

lemma decStr_all_digits {n : ℕ} (c : Char) (hc : c ∈ (decStr n).data) :
    c.isDigit = true := by
  by_cases hn : n = 0
  · subst hn
    simp [decStr] at hc
    subst hc
    decide
  · rw [decStr, if_neg hn] at hc
    have hmem : c ∈ (Nat.digits 10 n).map decChar := by
      simpa [List.mem_reverse] using hc
    obtain ⟨d, hd, rfl⟩ := List.mem_map.mp hmem
    exact decChar_isDigit (Nat.digits_lt_base (by norm_num) hd)

lemma otpNum_bounds {q : ℚ} (h0 : 0 ≤ q) (h1 : q < 1) :
    100000 ≤ OTPService.otpNum q ∧ OTPService.otpNum q ≤ 999999 := by
  have hlow : (100000 : ℤ) ≤ ⌊(100000 : ℚ) + q * 900000⌋ := by
    rw [Int.le_floor]
    push_cast
    nlinarith
  have hhigh : ⌊(100000 : ℚ) + q * 900000⌋ < 1000000 := by
    rw [Int.floor_lt]
    push_cast
    nlinarith
  unfold OTPService.otpNum
  omega

lemma append_ne_of_data_length_ne (a b c : String) (h : a.data.length ≠ b.data.length) :
    a ++ c ≠ b ++ c := by
  intro he
  have hd := congrArg String.data he
  simp only [String.data_append] at hd
  have hl := congrArg List.length hd
  simp only [List.length_append] at hl
  omega

lemma otpKey_ne_attemptsKey (identifier : String) :
    OTPService.otpKey identifier ≠ OTPService.attemptsKey identifier :=
  append_ne_of_data_length_ne _ _ identifier (by decide)

lemma otpKey_ne_rateLimitKey (identifier : String) :
    OTPService.otpKey identifier ≠ OTPService.rateLimitKey identifier :=
  append_ne_of_data_length_ne _ _ identifier (by decide)

lemma attemptsKey_ne_rateLimitKey (identifier : String) :
    OTPService.attemptsKey identifier ≠ OTPService.rateLimitKey identifier :=
  append_ne_of_data_length_ne _ _ identifier (by decide)

lemma Store.setEx_self (s : Store) (k : String) (seconds : Nat) (v : String) :
    Store.setEx s k seconds v k = some ⟨v, some seconds⟩ :=
  Function.update_same k _ s

lemma Store.setEx_ne (s : Store) (k : String) (seconds : Nat) (v : String)
    {k2 : String} (h : k2 ≠ k) : Store.setEx s k seconds v k2 = s k2 :=
  Function.update_noteq h _ s

lemma Store.del_self (s : Store) (k : String) : Store.del s k k = none :=
  Function.update_same k _ s

lemma Store.del_ne (s : Store) (k : String) {k2 : String} (h : k2 ≠ k) :
    Store.del s k k2 = s k2 :=
  Function.update_noteq h _ s

lemma Store.get_of_eq {s : Store} {k v : String} {t : Option Nat}
    (h : s k = some ⟨v, t⟩) : Store.get s k = some v := by
  simp [Store.get, h]

lemma Store.get_of_none {s : Store} {k : String} (h : s k = none) :
    Store.get s k = none := by
  simp [Store.get, h]

lemma Store.incr_of_some {s : Store} {k v : String} {t : Option Nat}
    (h : s k = some ⟨v, t⟩) :
    Store.incr s k =
      Function.update s k (some ⟨decStr ((parseDec v).getD 0 + 1), t⟩) := by
  rw [Store.incr, h]

/-!
Step lemmas: one characterization per branch of the engine's operations.
-/

lemma verifyOTP_notfound {s : Store} {identifier : String}
    (hash : String → String) (otp : String)
    (h : Store.get s (OTPService.otpKey identifier) = none) :
    OTPService.verifyOTP hash s identifier otp =
      (⟨false, "OTP expired or not found"⟩, s) := by
  simp only [OTPService.verifyOTP]
  rw [h]

lemma verifyOTP_success {s : Store} {identifier otp hv : String}
    {hash : String → String}
    (hget : Store.get s (OTPService.otpKey identifier) = some hv) (hvne : hv ≠ "")
    (hatt : OTPService.readAttempts s identifier < OTPService.MAX_ATTEMPTS)
    (hmatch : hash otp = hv) :
    OTPService.verifyOTP hash s identifier otp =
      (⟨true, "OTP verified successfully"⟩,
        Store.del (Store.del s (OTPService.otpKey identifier))
          (OTPService.attemptsKey identifier)) := by
  simp only [OTPService.verifyOTP]
  rw [hget]
  simp only [if_neg hvne, if_neg (not_le.mpr hatt), if_pos hmatch]

lemma verifyOTP_exceeded {s : Store} {identifier hv : String}
    (hash : String → String) (otp : String)
    (hget : Store.get s (OTPService.otpKey identifier) = some hv) (hvne : hv ≠ "")
    (hatt : OTPService.MAX_ATTEMPTS ≤ OTPService.readAttempts s identifier) :
    OTPService.verifyOTP hash s identifier otp =
      (⟨false, "Maximum verification attempts exceeded"⟩,
        Store.del (Store.del s (OTPService.otpKey identifier))
          (OTPService.attemptsKey identifier)) := by
  simp only [OTPService.verifyOTP]
  rw [hget]
  simp only [if_neg hvne, if_pos hatt]

lemma verifyOTP_mismatch {s : Store} {identifier otp hv : String}
    {hash : String → String}
    (hget : Store.get s (OTPService.otpKey identifier) = some hv) (hvne : hv ≠ "")
    (hatt : OTPService.readAttempts s identifier < OTPService.MAX_ATTEMPTS)
    (hmism : hash otp ≠ hv) :
    OTPService.verifyOTP hash s identifier otp =
      (⟨false, "Invalid OTP. " ++
          decStr (OTPService.MAX_ATTEMPTS - (OTPService.readAttempts s identifier + 1)) ++
          " attempt(s) remaining"⟩,
        Store.incr s (OTPService.attemptsKey identifier)) := by
  simp only [OTPService.verifyOTP]
  rw [hget]
  simp only [if_neg hvne, if_neg (not_le.mpr hatt), if_neg hmism]

lemma checkRateLimit_absent {s : Store} {identifier : String}
    (h : Store.get s (OTPService.rateLimitKey identifier) = none) :
    OTPService.checkRateLimit s identifier = ⟨true, none⟩ := by
  simp only [OTPService.checkRateLimit]
  rw [h]

lemma checkRateLimit_allowed {s : Store} {identifier c : String}
    (h : Store.get s (OTPService.rateLimitKey identifier) = some c)
    (hc : (parseDec c).getD 0 < OTPService.MAX_OTP_PER_HOUR) :
    OTPService.checkRateLimit s identifier = ⟨true, none⟩ := by
  simp only [OTPService.checkRateLimit]
  rw [h]
  dsimp only
  rw [if_neg]
  intro hand
  exact absurd hand.2 (not_le.mpr hc)

lemma checkRateLimit_denied {s : Store} {identifier c : String}
    (h : Store.get s (OTPService.rateLimitKey identifier) = some c) (hc : c ≠ "")
    (h3 : OTPService.MAX_OTP_PER_HOUR ≤ (parseDec c).getD 0) :
    OTPService.checkRateLimit s identifier =
      ⟨false, some "Rate limit exceeded. Maximum 3 OTPs per hour."⟩ := by
  simp only [OTPService.checkRateLimit]
  rw [h]
  dsimp only
  rw [if_pos ⟨hc, h3⟩]

lemma incrementRateLimit_absent {s : Store} {identifier : String}
    (h : Store.get s (OTPService.rateLimitKey identifier) = none) :
    OTPService.incrementRateLimit s identifier =
      Store.setEx s (OTPService.rateLimitKey identifier)
        OTPService.RATE_LIMIT_WINDOW "1" := by
  simp only [OTPService.incrementRateLimit]
  rw [h]

lemma incrementRateLimit_present {s : Store} {identifier c : String}
    (h : Store.get s (OTPService.rateLimitKey identifier) = some c) (hc : c ≠ "") :
    OTPService.incrementRateLimit s identifier =
      Store.incr s (OTPService.rateLimitKey identifier) := by
  simp only [OTPService.incrementRateLimit]
  rw [h]
  dsimp only
  rw [if_neg hc]

lemma storeOTP_eq (hash : String → String) (s : Store) (identifier otp : String) :
    OTPService.storeOTP hash s identifier otp =
      OTPService.incrementRateLimit
        (Store.setEx (Store.setEx s (OTPService.otpKey identifier)
            OTPService.OTP_EXPIRY (hash otp))
          (OTPService.attemptsKey identifier) OTPService.OTP_EXPIRY "0")
        identifier := rfl

lemma readAttempts_of_none {s : Store} {identifier : String}
    (h : s (OTPService.attemptsKey identifier) = none) :
    OTPService.readAttempts s identifier = 0 := by
  simp only [OTPService.readAttempts]
  rw [Store.get_of_none h]

lemma readAttempts_of_some {s : Store} {identifier v : String} {t : Option Nat}
    (h : s (OTPService.attemptsKey identifier) = some ⟨v, t⟩) (hne : v ≠ "") :
    OTPService.readAttempts s identifier = (parseDec v).getD 0 := by
  simp only [OTPService.readAttempts]
  rw [Store.get_of_eq h]
  dsimp only
  rw [if_neg hne]

/-!
Claim theorems.
-/

/-- C1: single-use codes.  For every identifier with a live code record
(nonempty stored hash) and attempts below the maximum, a `verifyOTP` call
whose submitted code hashes to the stored hash returns success and deletes
both the code record and the attempt counter; a second `verifyOTP` call with
the same code on the resulting store (no intervening issuance) returns
"OTP expired or not found" and leaves the store unchanged — an issued code
verifies successfully at most once. -/
theorem C1_single_use (hash : String → String) (s : Store)
    (identifier otp hv : String) (t : Option Nat)
    (hok : s (OTPService.otpKey identifier) = some ⟨hv, t⟩) (hvne : hv ≠ "")
    (hatt : OTPService.readAttempts s identifier < OTPService.MAX_ATTEMPTS)
    (hmatch : hash otp = hv) :
    (OTPService.verifyOTP hash s identifier otp).1 =
        ⟨true, "OTP verified successfully"⟩ ∧
    (OTPService.verifyOTP hash s identifier otp).2 (OTPService.otpKey identifier) = none ∧
    (OTPService.verifyOTP hash s identifier otp).2 (OTPService.attemptsKey identifier) = none ∧
    OTPService.verifyOTP hash (OTPService.verifyOTP hash s identifier otp).2 identifier otp =
      (⟨false, "OTP expired or not found"⟩,
        (OTPService.verifyOTP hash s identifier otp).2) := by
  have hget : Store.get s (OTPService.otpKey identifier) = some hv := Store.get_of_eq hok
  rw [verifyOTP_success hget hvne hatt hmatch]
  have hokgone : Store.del (Store.del s (OTPService.otpKey identifier))
      (OTPService.attemptsKey identifier) (OTPService.otpKey identifier) = none := by
    rw [Store.del_ne _ _ (otpKey_ne_attemptsKey identifier), Store.del_self]
  exact ⟨rfl, hokgone, Store.del_self _ _,
    verifyOTP_notfound hash otp (Store.get_of_none hokgone)⟩

/-- Witness for C1 at a concrete input: identifier "u", code "123456", the
digest function prefixing "H", a store holding the matching code record and
a zero attempt counter. -/
theorem C1_single_use_witness :
    (OTPService.verifyOTP (fun x => "H" ++ x)
        (Store.setEx (Store.setEx Store.empty (OTPService.otpKey "u") 600 "H123456")
          (OTPService.attemptsKey "u") 600 "0") "u" "123456").1 =
      ⟨true, "OTP verified successfully"⟩ :=
  (C1_single_use (fun x => "H" ++ x) _ "u" "123456" "H123456" (some 600)
    (by decide) (by decide)
    (by rw [readAttempts_of_some (Store.setEx_self _ _ _ _) (by decide)]; decide)
    (by decide)).1

lemma decStr_one : decStr 1 = "1" := by
  rw [decStr]
  norm_num [Nat.digits_def']
  decide

lemma decStr_two : decStr 2 = "2" := by
  rw [decStr]
  norm_num [Nat.digits_def']
  decide

lemma decStr_three : decStr 3 = "3" := by
  rw [decStr]
  norm_num [Nat.digits_def']
  decide

/-- C2: attempt bound.  Starting from a live code record with a freshly
seeded attempt counter "0", after exactly three consecutive mismatched
`verifyOTP` calls, the next call — for every submitted code, hence even the
correct one, the code being never compared — returns "Maximum verification
attempts exceeded" and deletes both the code record and the attempt
counter. -/
theorem C2_attempt_bound (hash : String → String) (s : Store)
    (identifier w1 w2 w3 hv : String) (t t2 : Option Nat)
    (hok : s (OTPService.otpKey identifier) = some ⟨hv, t⟩) (hvne : hv ≠ "")
    (hatt : s (OTPService.attemptsKey identifier) = some ⟨"0", t2⟩)
    (hm1 : hash w1 ≠ hv) (hm2 : hash w2 ≠ hv) (hm3 : hash w3 ≠ hv) :
    ∀ otp4 : String,
      (OTPService.verifyOTP hash
          ((OTPService.verifyOTP hash
            ((OTPService.verifyOTP hash
              ((OTPService.verifyOTP hash s identifier w1).2)
              identifier w2).2)
            identifier w3).2)
          identifier otp4).1 = ⟨false, "Maximum verification attempts exceeded"⟩ ∧
      (OTPService.verifyOTP hash
          ((OTPService.verifyOTP hash
            ((OTPService.verifyOTP hash
              ((OTPService.verifyOTP hash s identifier w1).2)
              identifier w2).2)
            identifier w3).2)
          identifier otp4).2 (OTPService.otpKey identifier) = none ∧
      (OTPService.verifyOTP hash
          ((OTPService.verifyOTP hash
            ((OTPService.verifyOTP hash
              ((OTPService.verifyOTP hash s identifier w1).2)
              identifier w2).2)
            identifier w3).2)
          identifier otp4).2 (OTPService.attemptsKey identifier) = none := by
  intro otp4
  have hra0 : OTPService.readAttempts s identifier = 0 := by
    rw [readAttempts_of_some hatt (by decide)]
    decide
  have hs1 : (OTPService.verifyOTP hash s identifier w1).2 =
      Function.update s (OTPService.attemptsKey identifier) (some ⟨"1", t2⟩) := by
    rw [verifyOTP_mismatch (Store.get_of_eq hok) hvne (by rw [hra0]; decide) hm1]
    rw [Store.incr_of_some hatt]
    rw [show (parseDec "0").getD 0 + 1 = 1 by decide, decStr_one]
  have hok1 : Function.update s (OTPService.attemptsKey identifier) (some ⟨"1", t2⟩)
      (OTPService.otpKey identifier) = some ⟨hv, t⟩ := by
    rw [Function.update_noteq (otpKey_ne_attemptsKey identifier)]
    exact hok
  have hatt1 : Function.update s (OTPService.attemptsKey identifier) (some ⟨"1", t2⟩)
      (OTPService.attemptsKey identifier) = some ⟨"1", t2⟩ :=
    Function.update_same _ _ _
  have hra1 : OTPService.readAttempts
      (Function.update s (OTPService.attemptsKey identifier) (some ⟨"1", t2⟩))
      identifier = 1 := by
    rw [readAttempts_of_some hatt1 (by decide)]
    decide
  have hs2 : (OTPService.verifyOTP hash
      (Function.update s (OTPService.attemptsKey identifier) (some ⟨"1", t2⟩))
      identifier w2).2 =
      Function.update s (OTPService.attemptsKey identifier) (some ⟨"2", t2⟩) := by
    rw [verifyOTP_mismatch (Store.get_of_eq hok1) hvne (by rw [hra1]; decide) hm2]
    rw [Store.incr_of_some hatt1]
    rw [Function.update_idem]
    rw [show (parseDec "1").getD 0 + 1 = 2 by decide, decStr_two]
  have hok2 : Function.update s (OTPService.attemptsKey identifier) (some ⟨"2", t2⟩)
      (OTPService.otpKey identifier) = some ⟨hv, t⟩ := by
    rw [Function.update_noteq (otpKey_ne_attemptsKey identifier)]
    exact hok
  have hatt2 : Function.update s (OTPService.attemptsKey identifier) (some ⟨"2", t2⟩)
      (OTPService.attemptsKey identifier) = some ⟨"2", t2⟩ :=
    Function.update_same _ _ _
  have hra2 : OTPService.readAttempts
      (Function.update s (OTPService.attemptsKey identifier) (some ⟨"2", t2⟩))
      identifier = 2 := by
    rw [readAttempts_of_some hatt2 (by decide)]
    decide
  have hs3 : (OTPService.verifyOTP hash
      (Function.update s (OTPService.attemptsKey identifier) (some ⟨"2", t2⟩))
      identifier w3).2 =
      Function.update s (OTPService.attemptsKey identifier) (some ⟨"3", t2⟩) := by
    rw [verifyOTP_mismatch (Store.get_of_eq hok2) hvne (by rw [hra2]; decide) hm3]
    rw [Store.incr_of_some hatt2]
    rw [Function.update_idem]
    rw [show (parseDec "2").getD 0 + 1 = 3 by decide, decStr_three]
  have hok3 : Function.update s (OTPService.attemptsKey identifier) (some ⟨"3", t2⟩)
      (OTPService.otpKey identifier) = some ⟨hv, t⟩ := by
    rw [Function.update_noteq (otpKey_ne_attemptsKey identifier)]
    exact hok
  have hatt3 : Function.update s (OTPService.attemptsKey identifier) (some ⟨"3", t2⟩)
      (OTPService.attemptsKey identifier) = some ⟨"3", t2⟩ :=
    Function.update_same _ _ _
  have hra3 : OTPService.readAttempts
      (Function.update s (OTPService.attemptsKey identifier) (some ⟨"3", t2⟩))
      identifier = 3 := by
    rw [readAttempts_of_some hatt3 (by decide)]
    decide
  rw [hs1, hs2, hs3]
  rw [verifyOTP_exceeded hash otp4 (Store.get_of_eq hok3) hvne (by rw [hra3]; decide)]
  dsimp only
  refine ⟨rfl, ?_, Store.del_self _ _⟩
  rw [Store.del_ne _ _ (otpKey_ne_attemptsKey identifier), Store.del_self]

/-- Witness for C2 at a concrete input: three wrong codes "000000" against
stored digest "H123456", then the correct code "123456" is still rejected
with the attempts-exceeded message. -/
theorem C2_attempt_bound_witness :
    (OTPService.verifyOTP (fun x => "H" ++ x)
        ((OTPService.verifyOTP (fun x => "H" ++ x)
          ((OTPService.verifyOTP (fun x => "H" ++ x)
            ((OTPService.verifyOTP (fun x => "H" ++ x)
              (Store.setEx (Store.setEx Store.empty (OTPService.otpKey "u") 600 "H123456")
                (OTPService.attemptsKey "u") 600 "0")
              "u" "000000").2)
            "u" "000000").2)
          "u" "000000").2)
        "u" "123456").1 = ⟨false, "Maximum verification attempts exceeded"⟩ :=
  (C2_attempt_bound (fun x => "H" ++ x) _ "u" "000000" "000000" "000000" "H123456"
    (some 600) (some 600) (by decide) (by decide) (by decide)
    (by decide) (by decide) (by decide) "123456").1

lemma Store.incr_ne (s : Store) (k1 : String) {k : String} (h : k ≠ k1) :
    Store.incr s k1 k = s k := by
  cases hs : s k1 <;> simp only [Store.incr, hs] <;>
    exact Function.update_noteq h _ _

lemma incrementRateLimit_ne (s : Store) (identifier : String) {k : String}
    (h : k ≠ OTPService.rateLimitKey identifier) :
    OTPService.incrementRateLimit s identifier k = s k := by
  simp only [OTPService.incrementRateLimit]
  cases hr : Store.get s (OTPService.rateLimitKey identifier) with
  | none => exact Store.setEx_ne _ _ _ _ h
  | some c =>
    dsimp only
    by_cases hc : c = ""
    · rw [if_pos hc]
      exact Store.setEx_ne _ _ _ _ h
    · rw [if_neg hc]
      exact Store.incr_ne _ _ h

lemma storeOTP_code (hash : String → String) (s : Store) (identifier otp : String) :
    OTPService.storeOTP hash s identifier otp (OTPService.otpKey identifier) =
      some ⟨hash otp, some OTPService.OTP_EXPIRY⟩ := by
  rw [storeOTP_eq, incrementRateLimit_ne _ _ (otpKey_ne_rateLimitKey identifier)]
  rw [Store.setEx_ne _ _ _ _ (otpKey_ne_attemptsKey identifier), Store.setEx_self]

lemma storeOTP_attempts (hash : String → String) (s : Store) (identifier otp : String) :
    OTPService.storeOTP hash s identifier otp (OTPService.attemptsKey identifier) =
      some ⟨"0", some OTPService.OTP_EXPIRY⟩ := by
  rw [storeOTP_eq, incrementRateLimit_ne _ _ (attemptsKey_ne_rateLimitKey identifier)]
  rw [Store.setEx_self]

lemma storeOTP_rate_absent (hash : String → String) (s : Store) (identifier otp : String)
    (h : s (OTPService.rateLimitKey identifier) = none) :
    OTPService.storeOTP hash s identifier otp (OTPService.rateLimitKey identifier) =
      some ⟨"1", some OTPService.RATE_LIMIT_WINDOW⟩ := by
  rw [storeOTP_eq]
  have h2 : Store.setEx (Store.setEx s (OTPService.otpKey identifier)
      OTPService.OTP_EXPIRY (hash otp))
      (OTPService.attemptsKey identifier) OTPService.OTP_EXPIRY "0"
      (OTPService.rateLimitKey identifier) = none := by
    rw [Store.setEx_ne _ _ _ _ (Ne.symm (attemptsKey_ne_rateLimitKey identifier))]
    rw [Store.setEx_ne _ _ _ _ (Ne.symm (otpKey_ne_rateLimitKey identifier))]
    exact h
  rw [incrementRateLimit_absent (Store.get_of_none h2), Store.setEx_self]

lemma storeOTP_rate_present (hash : String → String) (s : Store)
    (identifier otp v : String) (t : Option Nat)
    (h : s (OTPService.rateLimitKey identifier) = some ⟨v, t⟩) (hv : v ≠ "") :
    OTPService.storeOTP hash s identifier otp (OTPService.rateLimitKey identifier) =
      some ⟨decStr ((parseDec v).getD 0 + 1), t⟩ := by
  rw [storeOTP_eq]
  have h2 : Store.setEx (Store.setEx s (OTPService.otpKey identifier)
      OTPService.OTP_EXPIRY (hash otp))
      (OTPService.attemptsKey identifier) OTPService.OTP_EXPIRY "0"
      (OTPService.rateLimitKey identifier) = some ⟨v, t⟩ := by
    rw [Store.setEx_ne _ _ _ _ (Ne.symm (attemptsKey_ne_rateLimitKey identifier))]
    rw [Store.setEx_ne _ _ _ _ (Ne.symm (otpKey_ne_rateLimitKey identifier))]
    exact h
  rw [incrementRateLimit_present (Store.get_of_eq h2) hv, Store.incr_of_some h2]
  exact Function.update_same _ _ _

/-- C6: mismatch accounting.  For a live code record and a stored attempt
counter parsing to `a` with `a < MAX_ATTEMPTS`, a `verifyOTP` call whose
submitted code does not hash to the stored hash rewrites the attempt counter
to the decimal rendering of `a + 1` with its TTL untouched, and reports
`MAX_ATTEMPTS - (a + 1)` remaining attempts. -/
theorem C6_mismatch_accounting (hash : String → String) (s : Store)
    (identifier otp hv av : String) (t t2 : Option Nat) (a : Nat)
    (hok : s (OTPService.otpKey identifier) = some ⟨hv, t⟩) (hvne : hv ≠ "")
    (hatt : s (OTPService.attemptsKey identifier) = some ⟨av, t2⟩) (havne : av ≠ "")
    (ha : (parseDec av).getD 0 = a) (halt : a < OTPService.MAX_ATTEMPTS)
    (hmism : hash otp ≠ hv) :
    (OTPService.verifyOTP hash s identifier otp).1 =
      ⟨false, "Invalid OTP. " ++ decStr (OTPService.MAX_ATTEMPTS - (a + 1)) ++
        " attempt(s) remaining"⟩ ∧
    (OTPService.verifyOTP hash s identifier otp).2 (OTPService.attemptsKey identifier) =
      some ⟨decStr (a + 1), t2⟩ := by
  have hra : OTPService.readAttempts s identifier = a := by
    rw [readAttempts_of_some hatt havne]
    exact ha
  rw [verifyOTP_mismatch (Store.get_of_eq hok) hvne (by rw [hra]; exact halt) hmism]
  dsimp only
  refine ⟨by rw [hra], ?_⟩
  rw [Store.incr_of_some hatt, ha]
  exact Function.update_same _ _ _

/-- Witness for C6 at a concrete input: prior attempts "1", wrong code
"000000" against stored digest "H123456". -/
theorem C6_mismatch_accounting_witness :
    (OTPService.verifyOTP (fun x => "H" ++ x)
        (Store.setEx (Store.setEx Store.empty (OTPService.otpKey "u") 600 "H123456")
          (OTPService.attemptsKey "u") 600 "1") "u" "000000").1 =
      ⟨false, "Invalid OTP. " ++ decStr (OTPService.MAX_ATTEMPTS - (1 + 1)) ++
        " attempt(s) remaining"⟩ :=
  (C6_mismatch_accounting (fun x => "H" ++ x) _ "u" "000000" "H123456" "1"
    (some 600) (some 600) 1 (by decide) (by decide) (by decide) (by decide)
    (by decide) (by decide) (by decide)).1

/-- C3: rate bound.  For an identifier whose rate counter is absent (treated
as zero), the first three issuance requests are allowed and each successful
issuance raises the counter by exactly one ("1", "2", "3", the first with the
rate-window TTL which the increments preserve), and the fourth request is
denied with the message stating the limit and the window. -/
theorem C3_rate_bound (hash : String → String) (s : Store)
    (identifier otp1 otp2 otp3 : String)
    (hnone : s (OTPService.rateLimitKey identifier) = none) :
    OTPService.checkRateLimit s identifier = ⟨true, none⟩ ∧
    OTPService.storeOTP hash s identifier otp1 (OTPService.rateLimitKey identifier) =
      some ⟨"1", some OTPService.RATE_LIMIT_WINDOW⟩ ∧
    OTPService.checkRateLimit (OTPService.storeOTP hash s identifier otp1) identifier =
      ⟨true, none⟩ ∧
    OTPService.storeOTP hash (OTPService.storeOTP hash s identifier otp1)
        identifier otp2 (OTPService.rateLimitKey identifier) =
      some ⟨"2", some OTPService.RATE_LIMIT_WINDOW⟩ ∧
    OTPService.checkRateLimit
        (OTPService.storeOTP hash (OTPService.storeOTP hash s identifier otp1)
          identifier otp2) identifier = ⟨true, none⟩ ∧
    OTPService.storeOTP hash
        (OTPService.storeOTP hash (OTPService.storeOTP hash s identifier otp1)
          identifier otp2) identifier otp3 (OTPService.rateLimitKey identifier) =
      some ⟨"3", some OTPService.RATE_LIMIT_WINDOW⟩ ∧
    OTPService.checkRateLimit
        (OTPService.storeOTP hash
          (OTPService.storeOTP hash (OTPService.storeOTP hash s identifier otp1)
            identifier otp2) identifier otp3) identifier =
      ⟨false, some "Rate limit exceeded. Maximum 3 OTPs per hour."⟩ := by
  have h1 : OTPService.storeOTP hash s identifier otp1
      (OTPService.rateLimitKey identifier) =
      some ⟨"1", some OTPService.RATE_LIMIT_WINDOW⟩ :=
    storeOTP_rate_absent hash s identifier otp1 hnone
  have h2 : OTPService.storeOTP hash (OTPService.storeOTP hash s identifier otp1)
      identifier otp2 (OTPService.rateLimitKey identifier) =
      some ⟨"2", some OTPService.RATE_LIMIT_WINDOW⟩ := by
    rw [storeOTP_rate_present hash _ identifier otp2 "1"
      (some OTPService.RATE_LIMIT_WINDOW) h1 (by decide)]
    rw [show (parseDec "1").getD 0 + 1 = 2 by decide, decStr_two]
  have h3 : OTPService.storeOTP hash
      (OTPService.storeOTP hash (OTPService.storeOTP hash s identifier otp1)
        identifier otp2) identifier otp3 (OTPService.rateLimitKey identifier) =
      some ⟨"3", some OTPService.RATE_LIMIT_WINDOW⟩ := by
    rw [storeOTP_rate_present hash _ identifier otp3 "2"
      (some OTPService.RATE_LIMIT_WINDOW) h2 (by decide)]
    rw [show (parseDec "2").getD 0 + 1 = 3 by decide, decStr_three]
  refine ⟨checkRateLimit_absent (Store.get_of_none hnone), h1, ?_, h2, ?_, h3, ?_⟩
  · exact checkRateLimit_allowed (Store.get_of_eq h1) (by decide)
  · exact checkRateLimit_allowed (Store.get_of_eq h2) (by decide)
  · exact checkRateLimit_denied (Store.get_of_eq h3) (by decide) (by decide)

/-- Witness for C3 at a concrete input: the empty store, identifier "u". -/
theorem C3_rate_bound_witness :
    OTPService.checkRateLimit
        (OTPService.storeOTP (fun x => "H" ++ x)
          (OTPService.storeOTP (fun x => "H" ++ x)
            (OTPService.storeOTP (fun x => "H" ++ x) Store.empty "u" "111111")
            "u" "222222") "u" "333333") "u" =
      ⟨false, some "Rate limit exceeded. Maximum 3 OTPs per hour."⟩ :=
  (C3_rate_bound (fun x => "H" ++ x) Store.empty "u" "111111" "222222" "333333"
    rfl).2.2.2.2.2.2

/-- C5 counterexample: the claim's "leaves the rate counter unaffected" is
false as stated — issuing a new code for an identifier whose rate counter
holds "2" changes that counter (storeOTP increments it to "3"). -/
theorem C5_counterexample :
    OTPService.storeOTP (fun x => "H" ++ x)
        (Store.setEx (Store.setEx (Store.setEx Store.empty
            (OTPService.otpKey "u") 600 "HOLD")
          (OTPService.attemptsKey "u") 600 "2")
          (OTPService.rateLimitKey "u") 100 "2")
        "u" "999999" (OTPService.rateLimitKey "u") ≠
      (Store.setEx (Store.setEx (Store.setEx Store.empty
            (OTPService.otpKey "u") 600 "HOLD")
          (OTPService.attemptsKey "u") 600 "2")
          (OTPService.rateLimitKey "u") 100 "2")
        (OTPService.rateLimitKey "u") := by
  rw [storeOTP_rate_present (fun x => "H" ++ x) _ "u" "999999" "2" (some 100)
    (by decide) (by decide)]
  rw [show (parseDec "2").getD 0 + 1 = 3 by decide, decStr_three]
  rw [Store.setEx_self]
  decide

/-- C5 (amended): issuing a new code for an identifier with a live code
record and a non-zero attempt counter unconditionally overwrites the code
record with the new hash and the fresh code-lifetime TTL, resets the attempt
counter to "0" with the same fresh TTL, and does not reset the rate counter:
the rate counter is incremented by exactly one with its TTL preserved
(never set back to zero by issuance). -/
theorem C5_reissue_resets_attempts_not_rate (hash : String → String) (s : Store)
    (identifier otp hv av rv : String) (t t2 t3 : Option Nat)
    (hok : s (OTPService.otpKey identifier) = some ⟨hv, t⟩)
    (hatt : s (OTPService.attemptsKey identifier) = some ⟨av, t2⟩)
    (hattnz : (parseDec av).getD 0 ≠ 0)
    (hrate : s (OTPService.rateLimitKey identifier) = some ⟨rv, t3⟩) (hrv : rv ≠ "") :
    OTPService.storeOTP hash s identifier otp (OTPService.otpKey identifier) =
      some ⟨hash otp, some OTPService.OTP_EXPIRY⟩ ∧
    OTPService.storeOTP hash s identifier otp (OTPService.attemptsKey identifier) =
      some ⟨"0", some OTPService.OTP_EXPIRY⟩ ∧
    OTPService.storeOTP hash s identifier otp (OTPService.rateLimitKey identifier) =
      some ⟨decStr ((parseDec rv).getD 0 + 1), t3⟩ :=
  ⟨storeOTP_code hash s identifier otp, storeOTP_attempts hash s identifier otp,
    storeOTP_rate_present hash s identifier otp rv t3 hrate hrv⟩

/-- Witness for C5 at a concrete input: live record "HOLD", attempts "2",
rate "2" with TTL 100; reissuance of "999999". -/
theorem C5_reissue_witness :
    OTPService.storeOTP (fun x => "H" ++ x)
        (Store.setEx (Store.setEx (Store.setEx Store.empty
            (OTPService.otpKey "u") 600 "HOLD")
          (OTPService.attemptsKey "u") 600 "2")
          (OTPService.rateLimitKey "u") 100 "2")
        "u" "999999" (OTPService.attemptsKey "u") =
      some ⟨"0", some OTPService.OTP_EXPIRY⟩ :=
  (C5_reissue_resets_attempts_not_rate (fun x => "H" ++ x) _ "u" "999999"
    "HOLD" "2" "2" (some 600) (some 600) (some 100)
    (by decide) (by decide) (by decide) (by decide) (by decide)).2.1

/-- C7: a rate-limited request never charges the identifier.
`checkRateLimit` performs only a `GET` (in the embedding it returns no
modified store at all), and when the rate limit denies an issuance request,
`MessagingService.sendOTP` returns the denial and the store exactly as it
was: no code record written, attempt counter unchanged, rate counter not
incremented. -/
theorem C7_denied_leaves_store (hash : String → String)
    (smsProvider : Option (String → String → SendResult))
    (emailProvider : Option (String → String → Option String → SendResult))
    (channel : Channel) (identifier : String) (brandName : Option String)
    (q : ℚ) (s : Store) (c : String) (t : Option Nat)
    (hc : s (OTPService.rateLimitKey identifier) = some ⟨c, t⟩) (hcne : c ≠ "")
    (h3 : OTPService.MAX_OTP_PER_HOUR ≤ (parseDec c).getD 0) :
    MessagingService.sendOTP hash smsProvider emailProvider channel identifier
        brandName q s =
      (⟨false, "Rate limit exceeded. Maximum 3 OTPs per hour."⟩, s) := by
  simp only [MessagingService.sendOTP]
  rw [checkRateLimit_denied (Store.get_of_eq hc) hcne h3]
  simp

/-- Witness for C7 at a concrete input: rate counter "3", SMS channel. -/
theorem C7_denied_leaves_store_witness :
    MessagingService.sendOTP (fun x => "H" ++ x) none none Channel.sms "u" none 0
        (Store.setEx Store.empty (OTPService.rateLimitKey "u") 3600 "3") =
      (⟨false, "Rate limit exceeded. Maximum 3 OTPs per hour."⟩,
        Store.setEx Store.empty (OTPService.rateLimitKey "u") 3600 "3") :=
  C7_denied_leaves_store (fun x => "H" ++ x) none none Channel.sms "u" none 0
    _ "3" (some 3600) (by decide) (by decide) (by decide)

/-- C9 counterexample: the engine does not report the channel's outcome
verbatim — with an SMS provider whose delivery outcome carries the message
"provider receipt 42", the result returned by `sendOTP` differs from that
outcome (its message is rewritten to "OTP sent successfully via sms"). -/
theorem C9_counterexample :
    (MessagingService.sendOTP (fun x => "H" ++ x)
        (some (fun _ _ => ⟨true, "provider receipt 42"⟩)) none
        Channel.sms "u" none 0 Store.empty).1 ≠
      SMSService.sendOTP (some (fun _ _ => ⟨true, "provider receipt 42"⟩)) "u"
        (OTPService.generateOTP 0) := by
  intro h
  have hm := congrArg SendResult.message h
  exact absurd hm (by decide)

/-- C9 (amended): for every issuance that reaches the delivery step, the
engine makes exactly one delivery call on the selected channel and returns
its success flag verbatim; on delivery failure the channel's outcome is
returned verbatim (same flag and message), while on delivery success the
message is replaced by the fixed "OTP sent successfully via <channel>"
text. -/
theorem C9_delivery_outcome (hash : String → String)
    (smsProvider : Option (String → String → SendResult))
    (emailProvider : Option (String → String → Option String → SendResult))
    (channel : Channel) (identifier : String) (brandName : Option String)
    (q : ℚ) (s : Store)
    (hallow : (OTPService.checkRateLimit s identifier).allowed = true) :
    (MessagingService.sendOTP hash smsProvider emailProvider channel identifier
        brandName q s).1.success =
      (MessagingService.deliverOTP smsProvider emailProvider channel identifier
        (OTPService.generateOTP q) brandName).success ∧
    ((MessagingService.deliverOTP smsProvider emailProvider channel identifier
        (OTPService.generateOTP q) brandName).success = false →
      (MessagingService.sendOTP hash smsProvider emailProvider channel identifier
          brandName q s).1 =
        MessagingService.deliverOTP smsProvider emailProvider channel identifier
          (OTPService.generateOTP q) brandName) ∧
    ((MessagingService.deliverOTP smsProvider emailProvider channel identifier
        (OTPService.generateOTP q) brandName).success = true →
      (MessagingService.sendOTP hash smsProvider emailProvider channel identifier
          brandName q s).1.message =
        "OTP sent successfully via " ++ channelName channel) := by
  simp only [MessagingService.sendOTP, hallow]
  by_cases hd : (MessagingService.deliverOTP smsProvider emailProvider channel
      identifier (OTPService.generateOTP q) brandName).success
  · simp [hd]
  · simp only [Bool.not_eq_true] at hd
    simp [hd]

/-- Witness for C9 at a concrete input: empty store (rate allowed), SMS
provider returning a failure outcome. -/
theorem C9_delivery_outcome_witness :
    (MessagingService.sendOTP (fun x => "H" ++ x)
        (some (fun _ _ => ⟨false, "vendor outage"⟩)) none
        Channel.sms "u" none 0 Store.empty).1.success =
      (MessagingService.deliverOTP (some (fun _ _ => ⟨false, "vendor outage"⟩))
        none Channel.sms "u" (OTPService.generateOTP 0) none).success :=
  (C9_delivery_outcome (fun x => "H" ++ x)
    (some (fun _ _ => ⟨false, "vendor outage"⟩)) none
    Channel.sms "u" none 0 Store.empty (by decide)).1

/-- C8 counterexample: the three record kinds do not carry distinct
top-level namespace prefixes — the code-record namespace is the bare
"otp:" prefix, under which the attempts namespace nests, so the code-record
key of identifier "attempts:u" is literally the attempt-counter key of
identifier "u". -/
theorem C8_counterexample :
    OTPService.otpKey "attempts:u" = OTPService.attemptsKey "u" := by decide

/-- C8 (amended): for every identifier the three store keys are pairwise
distinct, and the attempt-counter and rate-counter keys live in the
dedicated sub-namespaces "otp:attempts:" and "otp:ratelimit:" of the shared
"otp:" namespace; the code-record namespace is the bare "otp:" prefix
itself, so the three kinds cannot be classified by a top-level prefix
alone (an attempts or rate key is also an "otp:"-prefixed key). -/
theorem C8_key_namespaces (identifier : String) :
    (OTPService.otpKey identifier ≠ OTPService.attemptsKey identifier ∧
     OTPService.otpKey identifier ≠ OTPService.rateLimitKey identifier ∧
     OTPService.attemptsKey identifier ≠ OTPService.rateLimitKey identifier) ∧
    OTPService.otpKey identifier = "otp:" ++ identifier ∧
    OTPService.attemptsKey identifier = "otp:" ++ ("attempts:" ++ identifier) ∧
    OTPService.rateLimitKey identifier = "otp:" ++ ("ratelimit:" ++ identifier) := by
  refine ⟨⟨otpKey_ne_attemptsKey identifier, otpKey_ne_rateLimitKey identifier,
    attemptsKey_ne_rateLimitKey identifier⟩, rfl, ?_, ?_⟩
  · apply String.ext
    simp [OTPService.attemptsKey, String.data_append]
  · apply String.ext
    simp [OTPService.rateLimitKey, String.data_append]

/-- C4 counterexample: the generator's range does not include codes with
leading zeros — no random draw in [0, 1) can produce the 6-digit string
"048213" (the spec's own Scenario A example), because the generated value
is at least 100000 and its rendering never starts with '0'. -/
theorem C4_counterexample :
    ¬ ∃ q : ℚ, 0 ≤ q ∧ q < 1 ∧ OTPService.generateOTP q = "048213" := by
  rintro ⟨q, h0, h1, he⟩
  have hb := (otpNum_bounds h0 h1).1
  have hhead := decStr_head_ne_zero hb
  simp only [OTPService.generateOTP] at he
  rw [he] at hhead
  exact hhead (by decide)

/-- C4 (amended): the generator produces a fixed-length 6-digit decimal
string whose numeric value is uniform over 100000–999999 in the sense that
it lies in that interval for every draw and every value of the interval is
attained by some draw; codes with leading zeros are never produced, and the
random source is `Math.random`, not a cryptographic source. -/
theorem C4_generate_range (q : ℚ) (h0 : 0 ≤ q) (h1 : q < 1) :
    100000 ≤ OTPService.otpNum q ∧ OTPService.otpNum q ≤ 999999 ∧
    (OTPService.generateOTP q).length = 6 ∧
    (∀ c ∈ (OTPService.generateOTP q).data, c.isDigit = true) ∧
    ∀ n : ℕ, 100000 ≤ n → n ≤ 999999 →
      ∃ r : ℚ, 0 ≤ r ∧ r < 1 ∧ OTPService.otpNum r = n := by
  obtain ⟨hl, hh⟩ := otpNum_bounds h0 h1
  refine ⟨hl, hh, decStr_length hl hh, fun c hc => decStr_all_digits c hc, ?_⟩
  intro n hn1 hn2
  refine ⟨((n : ℚ) - 100000) / 900000, ?_, ?_, ?_⟩
  · apply div_nonneg _ (by norm_num)
    have hcast : (100000 : ℚ) ≤ (n : ℚ) := by exact_mod_cast hn1
    linarith
  · rw [div_lt_one (by norm_num)]
    have hcast : (n : ℚ) ≤ 999999 := by exact_mod_cast hn2
    linarith
  · unfold OTPService.otpNum
    have he : (100000 : ℚ) + ((n : ℚ) - 100000) / 900000 * 900000 = (n : ℚ) := by
      field_simp
    rw [he, Int.floor_natCast]
    omega

/-- Witness for C4 (amended) at the concrete draw 0. -/
theorem C4_generate_range_witness :
    100000 ≤ OTPService.otpNum 0 ∧ OTPService.otpNum 0 ≤ 999999 :=
  ⟨(C4_generate_range 0 (by norm_num) (by norm_num)).1,
   (C4_generate_range 0 (by norm_num) (by norm_num)).2.1⟩

/-- C10: every string the generator returns has exactly 6 characters, each a
decimal digit, never starts with '0', and its numeric value lies in
[100000, 999999]. -/
theorem C10_no_leading_zero (q : ℚ) (h0 : 0 ≤ q) (h1 : q < 1) :
    (OTPService.generateOTP q).length = 6 ∧
    (∀ c ∈ (OTPService.generateOTP q).data, c.isDigit = true) ∧
    (OTPService.generateOTP q).data.head? ≠ some '0' ∧
    100000 ≤ OTPService.otpNum q ∧ OTPService.otpNum q ≤ 999999 := by
  obtain ⟨hl, hh⟩ := otpNum_bounds h0 h1
  exact ⟨decStr_length hl hh, fun c hc => decStr_all_digits c hc,
    decStr_head_ne_zero hl, hl, hh⟩

/-- Witness for C10 at the concrete draw 0. -/
theorem C10_no_leading_zero_witness :
    (OTPService.generateOTP 0).length = 6 ∧
    (OTPService.generateOTP 0).data.head? ≠ some '0' :=
  ⟨(C10_no_leading_zero 0 (by norm_num) (by norm_num)).1,
   (C10_no_leading_zero 0 (by norm_num) (by norm_num)).2.2.1⟩
